import Mathlib

/-!
Shallow embedding of crates/wiring/src/default/cfg.rs (EVM configuration).

The Rust source gates several fields of CfgEnv behind Cargo features
(cfg(feature = ...)) and uses cfg_if in the query methods.  We model a
build configuration as an explicit record of feature booleans and give
CfgEnv all fields (the all-features superset as storage); every
feature-dependent operation (queries, derived equality, serde encoding)
takes the build configuration as a parameter and consults it exactly
where the source consults cfg.  Machine integers (u64, usize) are
modelled as Nat: no arithmetic is performed on them anywhere in this
module, so overflow cannot arise.
-/

namespace Revm

/-- Build-time Cargo feature toggles referenced by cfg.rs. -/
structure Features where
  c_kzg : Bool
  kzg_rs : Bool
  memory_limit : Bool
  optional_balance_check : Bool
  optional_block_gas_limit : Bool
  optional_eip3607 : Bool
  optional_gas_refund : Bool
  optional_no_base_fee : Bool
deriving DecidableEq, Repr

/-- The kzg_settings field is gated on cfg(any(feature = "c-kzg", feature = "kzg-rs")). -/
def Features.kzgPresent (f : Features) : Bool :=
  f.c_kzg || f.kzg_rs

/-- Modelled from the spec: the constant specification::constants::MAX_CODE_SIZE is
imported by cfg.rs but its defining crate is not under src/; the spec states the
protocol constant is 24576 bytes (0x6000, EIP-170). -/
def MAX_CODE_SIZE : Nat := 0x6000

/-- Modelled from the spec: crate::kzg::EnvKzgSettings is not under src/; the spec
describes it as an opaque engine-selected variant, default trusted setup versus a
custom one.  The custom payload is opaque, modelled by a Nat. -/
inductive EnvKzgSettings where
  | Default
  | Custom (setup : Nat)
deriving DecidableEq, Repr

/-- What bytecode analysis to perform (enum AnalysisKind in cfg.rs). -/
inductive AnalysisKind where
  | Raw
  | Analyse
deriving DecidableEq, Repr

/-- The derive(Default) on AnalysisKind, with the default attribute on Analyse. -/
def AnalysisKind.default : AnalysisKind := AnalysisKind.Analyse

/-- EVM configuration (struct CfgEnv in cfg.rs).  Storage for every field of the
all-features build; in a build where a feature is off the corresponding field does
not exist in Rust, which the feature-parametrised operations below reproduce by
never consulting it. -/
structure CfgEnv where
  chain_id : Nat
  kzg_settings : EnvKzgSettings
  perf_analyse_created_bytecodes : AnalysisKind
  limit_contract_code_size : Option Nat
  disable_nonce_check : Bool
  memory_limit : Nat
  disable_balance_check : Bool
  disable_block_gas_limit : Bool
  disable_eip3607 : Bool
  disable_gas_refund : Bool
  disable_base_fee : Bool
deriving DecidableEq, Repr

/-- CfgEnv::with_chain_id: overwrite chain_id, return self. -/
def CfgEnv.with_chain_id (c : CfgEnv) (chain_id : Nat) : CfgEnv :=
  { c with chain_id := chain_id }

/-- Cfg::max_code_size for CfgEnv: self.limit_contract_code_size.unwrap_or(MAX_CODE_SIZE). -/
def CfgEnv.max_code_size (c : CfgEnv) : Nat :=
  c.limit_contract_code_size.getD MAX_CODE_SIZE

/-- Cfg::is_eip3607_disabled: cfg_if on feature optional_eip3607, else false. -/
def CfgEnv.is_eip3607_disabled (f : Features) (c : CfgEnv) : Bool :=
  cond f.optional_eip3607 c.disable_eip3607 false

/-- Cfg::is_balance_check_disabled: cfg_if on feature optional_balance_check, else false. -/
def CfgEnv.is_balance_check_disabled (f : Features) (c : CfgEnv) : Bool :=
  cond f.optional_balance_check c.disable_balance_check false

/-- Cfg::is_gas_refund_disabled: cfg_if on feature optional_gas_refund, else false. -/
def CfgEnv.is_gas_refund_disabled (f : Features) (c : CfgEnv) : Bool :=
  cond f.optional_gas_refund c.disable_gas_refund false

/-- Cfg::is_block_gas_limit_disabled: cfg_if on feature optional_block_gas_limit, else false. -/
def CfgEnv.is_block_gas_limit_disabled (f : Features) (c : CfgEnv) : Bool :=
  cond f.optional_block_gas_limit c.disable_block_gas_limit false

/-- Cfg::is_nonce_check_disabled: reads the field unconditionally (no cfg_if). -/
def CfgEnv.is_nonce_check_disabled (c : CfgEnv) : Bool :=
  c.disable_nonce_check

/-- Cfg::is_base_fee_check_disabled: cfg_if on feature optional_no_base_fee, else false. -/
def CfgEnv.is_base_fee_check_disabled (f : Features) (c : CfgEnv) : Bool :=
  cond f.optional_no_base_fee c.disable_base_fee false

/-- impl Default for CfgEnv, field by field; absent-feature storage fields receive
the same literals the source would give them when the feature is on. -/
def CfgEnv.default : CfgEnv :=
  { chain_id := 1
    kzg_settings := EnvKzgSettings.Default
    perf_analyse_created_bytecodes := AnalysisKind.default
    limit_contract_code_size := none
    disable_nonce_check := false
    memory_limit := (1 <<< 32) - 1
    disable_balance_check := false
    disable_block_gas_limit := false
    disable_eip3607 := false
    disable_gas_refund := false
    disable_base_fee := false }

/-- Derived PartialEq on CfgEnv for a given build: conjunction of field equality
over exactly the fields that exist in that build. -/
def CfgEnv.beq (f : Features) (a b : CfgEnv) : Bool :=
  a.chain_id == b.chain_id &&
  cond f.kzgPresent (a.kzg_settings == b.kzg_settings) true &&
  a.perf_analyse_created_bytecodes == b.perf_analyse_created_bytecodes &&
  a.limit_contract_code_size == b.limit_contract_code_size &&
  a.disable_nonce_check == b.disable_nonce_check &&
  cond f.memory_limit (a.memory_limit == b.memory_limit) true &&
  cond f.optional_balance_check (a.disable_balance_check == b.disable_balance_check) true &&
  cond f.optional_block_gas_limit (a.disable_block_gas_limit == b.disable_block_gas_limit) true &&
  cond f.optional_eip3607 (a.disable_eip3607 == b.disable_eip3607) true &&
  cond f.optional_gas_refund (a.disable_gas_refund == b.disable_gas_refund) true &&
  cond f.optional_no_base_fee (a.disable_base_fee == b.disable_base_fee) true

/-- Field names of the self-describing serialized record. -/
inductive FieldTag where
  | chain_id
  | kzg_settings
  | perf_analyse_created_bytecodes
  | limit_contract_code_size
  | disable_nonce_check
  | memory_limit
  | disable_balance_check
  | disable_block_gas_limit
  | disable_eip3607
  | disable_gas_refund
  | disable_base_fee
deriving DecidableEq, Repr

/-- Values a serialized field can carry. -/
inductive SVal where
  | nat (n : Nat)
  | bool (b : Bool)
  | mode (k : AnalysisKind)
  | optNat (o : Option Nat)
deriving DecidableEq, Repr

/-- Modelled from the spec: the serde Serialize derive for CfgEnv is generated code,
not under src/.  Per the attributes in cfg.rs and the spec, the encoding is a
field-named record holding every field present in the build except kzg_settings,
which carries serde(skip) and never appears. -/
def CfgEnv.encode (f : Features) (c : CfgEnv) : List (FieldTag × SVal) :=
  [(FieldTag.chain_id, SVal.nat c.chain_id),
   (FieldTag.perf_analyse_created_bytecodes, SVal.mode c.perf_analyse_created_bytecodes),
   (FieldTag.limit_contract_code_size, SVal.optNat c.limit_contract_code_size),
   (FieldTag.disable_nonce_check, SVal.bool c.disable_nonce_check)]
  ++ (cond f.memory_limit [(FieldTag.memory_limit, SVal.nat c.memory_limit)] [])
  ++ (cond f.optional_balance_check
        [(FieldTag.disable_balance_check, SVal.bool c.disable_balance_check)] [])
  ++ (cond f.optional_block_gas_limit
        [(FieldTag.disable_block_gas_limit, SVal.bool c.disable_block_gas_limit)] [])
  ++ (cond f.optional_eip3607 [(FieldTag.disable_eip3607, SVal.bool c.disable_eip3607)] [])
  ++ (cond f.optional_gas_refund [(FieldTag.disable_gas_refund, SVal.bool c.disable_gas_refund)] [])
  ++ (cond f.optional_no_base_fee [(FieldTag.disable_base_fee, SVal.bool c.disable_base_fee)] [])

/-- Name lookup in a serialized record (first match wins). -/
def lookupField : List (FieldTag × SVal) → FieldTag → Option SVal
  | [], _ => none
  | p :: rest, t => if p.1 = t then some p.2 else lookupField rest t

/-- Decode an unsigned-integer field. -/
def decodeNat (l : List (FieldTag × SVal)) (t : FieldTag) : Option Nat :=
  match lookupField l t with
  | some (SVal.nat n) => some n
  | _ => none

/-- Decode a boolean field. -/
def decodeBool (l : List (FieldTag × SVal)) (t : FieldTag) : Option Bool :=
  match lookupField l t with
  | some (SVal.bool b) => some b
  | _ => none

/-- Decode an analysis-mode field. -/
def decodeMode (l : List (FieldTag × SVal)) (t : FieldTag) : Option AnalysisKind :=
  match lookupField l t with
  | some (SVal.mode k) => some k
  | _ => none

/-- Decode an optional-size field. -/
def decodeOptNat (l : List (FieldTag × SVal)) (t : FieldTag) : Option (Option Nat) :=
  match lookupField l t with
  | some (SVal.optNat o) => some o
  | _ => none

/-- Modelled from the spec: the serde Deserialize derive for CfgEnv is generated
code, not under src/.  Each field present in the build is required from the record
(wrong type or missing means failure); kzg_settings carries serde(skip) and is
filled with its default; storage for fields absent from the build is filled with
the defaults of impl Default (those fields do not exist in the Rust value). -/
def CfgEnv.decode (f : Features) (l : List (FieldTag × SVal)) : Option CfgEnv := do
  let ci ← decodeNat l FieldTag.chain_id
  let pb ← decodeMode l FieldTag.perf_analyse_created_bytecodes
  let lc ← decodeOptNat l FieldTag.limit_contract_code_size
  let dn ← decodeBool l FieldTag.disable_nonce_check
  let ml ← cond f.memory_limit (decodeNat l FieldTag.memory_limit) (some ((1 <<< 32) - 1))
  let dbc ← cond f.optional_balance_check
    (decodeBool l FieldTag.disable_balance_check) (some false)
  let dbg ← cond f.optional_block_gas_limit
    (decodeBool l FieldTag.disable_block_gas_limit) (some false)
  let d36 ← cond f.optional_eip3607 (decodeBool l FieldTag.disable_eip3607) (some false)
  let dgr ← cond f.optional_gas_refund (decodeBool l FieldTag.disable_gas_refund) (some false)
  let dbf ← cond f.optional_no_base_fee (decodeBool l FieldTag.disable_base_fee) (some false)
  some { chain_id := ci
         kzg_settings := EnvKzgSettings.Default
         perf_analyse_created_bytecodes := pb
         limit_contract_code_size := lc
         disable_nonce_check := dn
         memory_limit := ml
         disable_balance_check := dbc
         disable_block_gas_limit := dbg
         disable_eip3607 := d36
         disable_gas_refund := dgr
         disable_base_fee := dbf }

/-- Equality on exactly the serialized fields of a build: the present fields minus
the never-serialized kzg_settings. -/
def CfgEnv.serializedEq (f : Features) (a b : CfgEnv) : Bool :=
  a.chain_id == b.chain_id &&
  a.perf_analyse_created_bytecodes == b.perf_analyse_created_bytecodes &&
  a.limit_contract_code_size == b.limit_contract_code_size &&
  a.disable_nonce_check == b.disable_nonce_check &&
  cond f.memory_limit (a.memory_limit == b.memory_limit) true &&
  cond f.optional_balance_check (a.disable_balance_check == b.disable_balance_check) true &&
  cond f.optional_block_gas_limit (a.disable_block_gas_limit == b.disable_block_gas_limit) true &&
  cond f.optional_eip3607 (a.disable_eip3607 == b.disable_eip3607) true &&
  cond f.optional_gas_refund (a.disable_gas_refund == b.disable_gas_refund) true &&
  cond f.optional_no_base_fee (a.disable_base_fee == b.disable_base_fee) true

/-- A feature-guarded equality conjunct holds iff presence of the feature implies
equality of the guarded fields. -/
theorem cond_guard_iff {α : Type} [DecidableEq α] (g : Bool) (x y : α) :
    cond g (x == y) true = true ↔ (g = true → x = y) := by
  cases g <;> simp

/-- A Bool conditional with equal branches collapses. -/
theorem cond_same {α : Type} (g : Bool) (x : α) : cond g x x = x := by
  cases g <;> rfl

/-- A Bool premise can be read as a disjunction on its negation. -/
theorem bool_imp_iff (g : Bool) (P : Prop) : (g = true → P) ↔ (g = false ∨ P) := by
  cases g <;> simp

/-- Build-indexed equality on CfgEnv unfolded to present-field equalities. -/
theorem beq_true_iff (f : Features) (a b : CfgEnv) :
    CfgEnv.beq f a b = true ↔
      (a.chain_id = b.chain_id ∧
       (f.kzgPresent = true → a.kzg_settings = b.kzg_settings) ∧
       a.perf_analyse_created_bytecodes = b.perf_analyse_created_bytecodes ∧
       a.limit_contract_code_size = b.limit_contract_code_size ∧
       a.disable_nonce_check = b.disable_nonce_check ∧
       (f.memory_limit = true → a.memory_limit = b.memory_limit) ∧
       (f.optional_balance_check = true → a.disable_balance_check = b.disable_balance_check) ∧
       (f.optional_block_gas_limit = true →
         a.disable_block_gas_limit = b.disable_block_gas_limit) ∧
       (f.optional_eip3607 = true → a.disable_eip3607 = b.disable_eip3607) ∧
       (f.optional_gas_refund = true → a.disable_gas_refund = b.disable_gas_refund) ∧
       (f.optional_no_base_fee = true → a.disable_base_fee = b.disable_base_fee)) := by
  simp [CfgEnv.beq, Bool.and_eq_true, cond_guard_iff, and_assoc, bool_imp_iff]

/-- C1: for every suppression-flag query whose feature toggle is absent from the
build, the query returns false for every policy value, regardless of every other
field. -/
theorem suppression_flags_absent_false (f : Features) (c : CfgEnv) :
    (f.optional_eip3607 = false → c.is_eip3607_disabled f = false) ∧
    (f.optional_balance_check = false → c.is_balance_check_disabled f = false) ∧
    (f.optional_gas_refund = false → c.is_gas_refund_disabled f = false) ∧
    (f.optional_block_gas_limit = false → c.is_block_gas_limit_disabled f = false) ∧
    (f.optional_no_base_fee = false → c.is_base_fee_check_disabled f = false) := by
  refine ⟨?_, ?_, ?_, ?_, ?_⟩ <;> intro h <;>
    simp [CfgEnv.is_eip3607_disabled, CfgEnv.is_balance_check_disabled,
      CfgEnv.is_gas_refund_disabled, CfgEnv.is_block_gas_limit_disabled,
      CfgEnv.is_base_fee_check_disabled, h]

/-- Witness for C1 at a no-features build with every stored suppression field true. -/
theorem suppression_flags_absent_false_witness :
    CfgEnv.is_eip3607_disabled ⟨false, false, false, false, false, false, false, false⟩
      ⟨7, EnvKzgSettings.Custom 3, AnalysisKind.Raw, some 0, true, 5, true, true, true, true,
        true⟩ = false ∧
    CfgEnv.is_balance_check_disabled ⟨false, false, false, false, false, false, false, false⟩
      ⟨7, EnvKzgSettings.Custom 3, AnalysisKind.Raw, some 0, true, 5, true, true, true, true,
        true⟩ = false ∧
    CfgEnv.is_gas_refund_disabled ⟨false, false, false, false, false, false, false, false⟩
      ⟨7, EnvKzgSettings.Custom 3, AnalysisKind.Raw, some 0, true, 5, true, true, true, true,
        true⟩ = false ∧
    CfgEnv.is_block_gas_limit_disabled ⟨false, false, false, false, false, false, false, false⟩
      ⟨7, EnvKzgSettings.Custom 3, AnalysisKind.Raw, some 0, true, 5, true, true, true, true,
        true⟩ = false ∧
    CfgEnv.is_base_fee_check_disabled ⟨false, false, false, false, false, false, false, false⟩
      ⟨7, EnvKzgSettings.Custom 3, AnalysisKind.Raw, some 0, true, 5, true, true, true, true,
        true⟩ = false :=
  ⟨(suppression_flags_absent_false _ _).1 rfl,
   (suppression_flags_absent_false _ _).2.1 rfl,
   (suppression_flags_absent_false _ _).2.2.1 rfl,
   (suppression_flags_absent_false _ _).2.2.2.1 rfl,
   (suppression_flags_absent_false _ _).2.2.2.2 rfl⟩

/-- C2: default construction yields chain id 1, mode Analyse, no code-size
override (so max_code_size is the protocol constant 24576), every present
suppression flag false, memory limit 2^32 - 1, and the default trusted setup. -/
theorem default_construction (f : Features) :
    CfgEnv.default.chain_id = 1 ∧
    CfgEnv.default.perf_analyse_created_bytecodes = AnalysisKind.Analyse ∧
    CfgEnv.default.limit_contract_code_size = none ∧
    CfgEnv.default.max_code_size = MAX_CODE_SIZE ∧
    CfgEnv.default.max_code_size = 24576 ∧
    CfgEnv.default.is_eip3607_disabled f = false ∧
    CfgEnv.default.is_balance_check_disabled f = false ∧
    CfgEnv.default.is_gas_refund_disabled f = false ∧
    CfgEnv.default.is_block_gas_limit_disabled f = false ∧
    CfgEnv.default.is_nonce_check_disabled = false ∧
    CfgEnv.default.is_base_fee_check_disabled f = false ∧
    CfgEnv.default.memory_limit = 2 ^ 32 - 1 ∧
    CfgEnv.default.kzg_settings = EnvKzgSettings.Default := by
  refine ⟨rfl, rfl, rfl, rfl, rfl, ?_, ?_, ?_, ?_, rfl, ?_, by decide, rfl⟩ <;>
    simp [CfgEnv.is_eip3607_disabled, CfgEnv.is_balance_check_disabled,
      CfgEnv.is_gas_refund_disabled, CfgEnv.is_block_gas_limit_disabled,
      CfgEnv.is_base_fee_check_disabled, CfgEnv.default, cond_same]

/-- C3: max_code_size returns the override whenever it is set (any value,
including 0) and the protocol constant 24576 when it is unset. -/
theorem max_code_size_override (c : CfgEnv) :
    (∀ n, c.limit_contract_code_size = some n → c.max_code_size = n) ∧
    (c.limit_contract_code_size = none → c.max_code_size = 24576) := by
  constructor
  · intro n h
    simp [CfgEnv.max_code_size, h]
  · intro h
    simp [CfgEnv.max_code_size, h, MAX_CODE_SIZE]

/-- Witness for C3: an override of 0 is returned verbatim; no override gives 24576. -/
theorem max_code_size_override_witness :
    CfgEnv.max_code_size
      ⟨1, EnvKzgSettings.Default, AnalysisKind.Analyse, some 0, false, 0, false, false, false,
        false, false⟩ = 0 ∧
    CfgEnv.max_code_size
      ⟨1, EnvKzgSettings.Default, AnalysisKind.Analyse, none, false, 0, false, false, false,
        false, false⟩ = 24576 :=
  ⟨(max_code_size_override _).1 0 rfl, (max_code_size_override _).2 rfl⟩

/-- C4: with_chain_id changes only the chain id; every query and every other
field answers exactly as before, in every build. -/
theorem with_chain_id_frame (v : CfgEnv) (x : Nat) (f : Features) :
    (v.with_chain_id x).chain_id = x ∧
    (v.with_chain_id x).max_code_size = v.max_code_size ∧
    (v.with_chain_id x).is_eip3607_disabled f = v.is_eip3607_disabled f ∧
    (v.with_chain_id x).is_balance_check_disabled f = v.is_balance_check_disabled f ∧
    (v.with_chain_id x).is_gas_refund_disabled f = v.is_gas_refund_disabled f ∧
    (v.with_chain_id x).is_block_gas_limit_disabled f = v.is_block_gas_limit_disabled f ∧
    (v.with_chain_id x).is_nonce_check_disabled = v.is_nonce_check_disabled ∧
    (v.with_chain_id x).is_base_fee_check_disabled f = v.is_base_fee_check_disabled f ∧
    (v.with_chain_id x).kzg_settings = v.kzg_settings ∧
    (v.with_chain_id x).perf_analyse_created_bytecodes = v.perf_analyse_created_bytecodes ∧
    (v.with_chain_id x).limit_contract_code_size = v.limit_contract_code_size ∧
    (v.with_chain_id x).disable_nonce_check = v.disable_nonce_check ∧
    (v.with_chain_id x).memory_limit = v.memory_limit ∧
    (v.with_chain_id x).disable_balance_check = v.disable_balance_check ∧
    (v.with_chain_id x).disable_block_gas_limit = v.disable_block_gas_limit ∧
    (v.with_chain_id x).disable_eip3607 = v.disable_eip3607 ∧
    (v.with_chain_id x).disable_gas_refund = v.disable_gas_refund ∧
    (v.with_chain_id x).disable_base_fee = v.disable_base_fee :=
  ⟨rfl, rfl, rfl, rfl, rfl, rfl, rfl, rfl, rfl, rfl, rfl, rfl, rfl, rfl, rfl, rfl, rfl, rfl⟩

/-- C5: every operation of the interface implementation, default construction and
the chain-id update are total: on every input each returns a value. -/
theorem cfg_operations_total (f : Features) (c : CfgEnv) (x : Nat) :
    (∃ n, c.chain_id = n) ∧
    (∃ n, c.max_code_size = n) ∧
    (∃ b, c.is_eip3607_disabled f = b) ∧
    (∃ b, c.is_balance_check_disabled f = b) ∧
    (∃ b, c.is_gas_refund_disabled f = b) ∧
    (∃ b, c.is_block_gas_limit_disabled f = b) ∧
    (∃ b, c.is_nonce_check_disabled = b) ∧
    (∃ b, c.is_base_fee_check_disabled f = b) ∧
    (∃ v, CfgEnv.default = v) ∧
    (∃ v, c.with_chain_id x = v) :=
  ⟨⟨_, rfl⟩, ⟨_, rfl⟩, ⟨_, rfl⟩, ⟨_, rfl⟩, ⟨_, rfl⟩, ⟨_, rfl⟩, ⟨_, rfl⟩, ⟨_, rfl⟩,
   ⟨_, rfl⟩, ⟨_, rfl⟩⟩

/-- C8: the bytecode-analysis mode is a closed enumeration with exactly the two
inhabitants Raw and Analyse, and its default is Analyse. -/
theorem analysis_kind_closed_two :
    (∀ k : AnalysisKind, k = AnalysisKind.Raw ∨ k = AnalysisKind.Analyse) ∧
    AnalysisKind.Raw ≠ AnalysisKind.Analyse ∧
    AnalysisKind.default = AnalysisKind.Analyse := by
  refine ⟨?_, by decide, rfl⟩
  intro k
  cases k
  · exact Or.inl rfl
  · exact Or.inr rfl

/-- C9: the nonce-check query reads its backing field unconditionally in every
build, and each feature-gated query reads its backing field whenever its feature
is compiled in. -/
theorem queries_read_backing_fields (f : Features) (c : CfgEnv) :
    c.is_nonce_check_disabled = c.disable_nonce_check ∧
    (f.optional_eip3607 = true → c.is_eip3607_disabled f = c.disable_eip3607) ∧
    (f.optional_balance_check = true →
      c.is_balance_check_disabled f = c.disable_balance_check) ∧
    (f.optional_gas_refund = true → c.is_gas_refund_disabled f = c.disable_gas_refund) ∧
    (f.optional_block_gas_limit = true →
      c.is_block_gas_limit_disabled f = c.disable_block_gas_limit) ∧
    (f.optional_no_base_fee = true → c.is_base_fee_check_disabled f = c.disable_base_fee) := by
  refine ⟨rfl, ?_, ?_, ?_, ?_, ?_⟩ <;> intro h <;>
    simp [CfgEnv.is_eip3607_disabled, CfgEnv.is_balance_check_disabled,
      CfgEnv.is_gas_refund_disabled, CfgEnv.is_block_gas_limit_disabled,
      CfgEnv.is_base_fee_check_disabled, h]

/-- Witness for C9 at an all-features build and a policy value whose stored
suppression fields are all true. -/
theorem queries_read_backing_fields_witness :
    CfgEnv.is_nonce_check_disabled
      ⟨7, EnvKzgSettings.Default, AnalysisKind.Analyse, none, true, 5, true, true, true, true,
        true⟩ = true ∧
    CfgEnv.is_eip3607_disabled ⟨true, true, true, true, true, true, true, true⟩
      ⟨7, EnvKzgSettings.Default, AnalysisKind.Analyse, none, true, 5, true, true, true, true,
        true⟩ = true ∧
    CfgEnv.is_balance_check_disabled ⟨true, true, true, true, true, true, true, true⟩
      ⟨7, EnvKzgSettings.Default, AnalysisKind.Analyse, none, true, 5, true, true, true, true,
        true⟩ = true ∧
    CfgEnv.is_gas_refund_disabled ⟨true, true, true, true, true, true, true, true⟩
      ⟨7, EnvKzgSettings.Default, AnalysisKind.Analyse, none, true, 5, true, true, true, true,
        true⟩ = true ∧
    CfgEnv.is_block_gas_limit_disabled ⟨true, true, true, true, true, true, true, true⟩
      ⟨7, EnvKzgSettings.Default, AnalysisKind.Analyse, none, true, 5, true, true, true, true,
        true⟩ = true ∧
    CfgEnv.is_base_fee_check_disabled ⟨true, true, true, true, true, true, true, true⟩
      ⟨7, EnvKzgSettings.Default, AnalysisKind.Analyse, none, true, 5, true, true, true, true,
        true⟩ = true :=
  ⟨(queries_read_backing_fields ⟨true, true, true, true, true, true, true, true⟩ _).1,
   (queries_read_backing_fields _ _).2.1 rfl,
   (queries_read_backing_fields _ _).2.2.1 rfl,
   (queries_read_backing_fields _ _).2.2.2.1 rfl,
   (queries_read_backing_fields _ _).2.2.2.2.1 rfl,
   (queries_read_backing_fields _ _).2.2.2.2.2 rfl⟩

/-- C10: updating the chain id satisfies last-write-wins, and rewriting the
current chain id is the identity. -/
theorem with_chain_id_laws (v : CfgEnv) (a b : Nat) :
    (v.with_chain_id a).with_chain_id b = v.with_chain_id b ∧
    v.with_chain_id v.chain_id = v :=
  ⟨rfl, rfl⟩

/-- C6: build-indexed equality holds iff every present field compares equal; two
defaults are equal; changing any single present field away from its default value
breaks equality with the default. -/
theorem cfgenv_eq_iff_present_fields (f : Features) :
    (∀ a b : CfgEnv, CfgEnv.beq f a b = true ↔
      (a.chain_id = b.chain_id ∧
       (f.kzgPresent = true → a.kzg_settings = b.kzg_settings) ∧
       a.perf_analyse_created_bytecodes = b.perf_analyse_created_bytecodes ∧
       a.limit_contract_code_size = b.limit_contract_code_size ∧
       a.disable_nonce_check = b.disable_nonce_check ∧
       (f.memory_limit = true → a.memory_limit = b.memory_limit) ∧
       (f.optional_balance_check = true → a.disable_balance_check = b.disable_balance_check) ∧
       (f.optional_block_gas_limit = true →
         a.disable_block_gas_limit = b.disable_block_gas_limit) ∧
       (f.optional_eip3607 = true → a.disable_eip3607 = b.disable_eip3607) ∧
       (f.optional_gas_refund = true → a.disable_gas_refund = b.disable_gas_refund) ∧
       (f.optional_no_base_fee = true → a.disable_base_fee = b.disable_base_fee))) ∧
    CfgEnv.beq f CfgEnv.default CfgEnv.default = true ∧
    (∀ x, x ≠ CfgEnv.default.chain_id →
      CfgEnv.beq f { CfgEnv.default with chain_id := x } CfgEnv.default = false) ∧
    (f.kzgPresent = true → ∀ s, s ≠ CfgEnv.default.kzg_settings →
      CfgEnv.beq f { CfgEnv.default with kzg_settings := s } CfgEnv.default = false) ∧
    CfgEnv.beq f { CfgEnv.default with perf_analyse_created_bytecodes := AnalysisKind.Raw }
      CfgEnv.default = false ∧
    (∀ o, o ≠ CfgEnv.default.limit_contract_code_size →
      CfgEnv.beq f { CfgEnv.default with limit_contract_code_size := o } CfgEnv.default
        = false) ∧
    CfgEnv.beq f { CfgEnv.default with disable_nonce_check := true } CfgEnv.default = false ∧
    (f.memory_limit = true → ∀ x, x ≠ CfgEnv.default.memory_limit →
      CfgEnv.beq f { CfgEnv.default with memory_limit := x } CfgEnv.default = false) ∧
    (f.optional_balance_check = true →
      CfgEnv.beq f { CfgEnv.default with disable_balance_check := true } CfgEnv.default
        = false) ∧
    (f.optional_block_gas_limit = true →
      CfgEnv.beq f { CfgEnv.default with disable_block_gas_limit := true } CfgEnv.default
        = false) ∧
    (f.optional_eip3607 = true →
      CfgEnv.beq f { CfgEnv.default with disable_eip3607 := true } CfgEnv.default = false) ∧
    (f.optional_gas_refund = true →
      CfgEnv.beq f { CfgEnv.default with disable_gas_refund := true } CfgEnv.default
        = false) ∧
    (f.optional_no_base_fee = true →
      CfgEnv.beq f { CfgEnv.default with disable_base_fee := true } CfgEnv.default = false) := by
  refine ⟨beq_true_iff f, ?_, ?_, ?_, ?_, ?_, ?_, ?_, ?_, ?_, ?_, ?_, ?_⟩
  · rw [beq_true_iff]
    simp
  · intro x hx
    rw [Bool.eq_false_iff, Ne, beq_true_iff]
    intro h
    exact hx h.1
  · intro hk s hs
    rw [Bool.eq_false_iff, Ne, beq_true_iff]
    intro h
    exact hs (h.2.1 hk)
  · rw [Bool.eq_false_iff, Ne, beq_true_iff]
    intro h
    exact absurd h.2.2.1 (by decide)
  · intro o ho
    rw [Bool.eq_false_iff, Ne, beq_true_iff]
    intro h
    exact ho h.2.2.2.1
  · rw [Bool.eq_false_iff, Ne, beq_true_iff]
    intro h
    exact absurd h.2.2.2.2.1 (by decide)
  · intro hm x hx
    rw [Bool.eq_false_iff, Ne, beq_true_iff]
    intro h
    exact hx (h.2.2.2.2.2.1 hm)
  · intro hb
    rw [Bool.eq_false_iff, Ne, beq_true_iff]
    intro h
    exact absurd (h.2.2.2.2.2.2.1 hb) (by decide)
  · intro hb
    rw [Bool.eq_false_iff, Ne, beq_true_iff]
    intro h
    exact absurd (h.2.2.2.2.2.2.2.1 hb) (by decide)
  · intro hb
    rw [Bool.eq_false_iff, Ne, beq_true_iff]
    intro h
    exact absurd (h.2.2.2.2.2.2.2.2.1 hb) (by decide)
  · intro hb
    rw [Bool.eq_false_iff, Ne, beq_true_iff]
    intro h
    exact absurd (h.2.2.2.2.2.2.2.2.2.1 hb) (by decide)
  · intro hb
    rw [Bool.eq_false_iff, Ne, beq_true_iff]
    intro h
    exact absurd (h.2.2.2.2.2.2.2.2.2.2 hb) (by decide)

/-- Witness for C6 at an all-features build: default equals default, and four
single-field changes (chain id, trusted setup, memory limit, base-fee flag) each
break equality with the default. -/
theorem cfgenv_eq_iff_present_fields_witness :
    CfgEnv.beq ⟨true, true, true, true, true, true, true, true⟩ CfgEnv.default CfgEnv.default
      = true ∧
    CfgEnv.beq ⟨true, true, true, true, true, true, true, true⟩
      { CfgEnv.default with chain_id := 42 } CfgEnv.default = false ∧
    CfgEnv.beq ⟨true, true, true, true, true, true, true, true⟩
      { CfgEnv.default with kzg_settings := EnvKzgSettings.Custom 0 } CfgEnv.default = false ∧
    CfgEnv.beq ⟨true, true, true, true, true, true, true, true⟩
      { CfgEnv.default with memory_limit := 0 } CfgEnv.default = false ∧
    CfgEnv.beq ⟨true, true, true, true, true, true, true, true⟩
      { CfgEnv.default with disable_base_fee := true } CfgEnv.default = false :=
  ⟨(cfgenv_eq_iff_present_fields ⟨true, true, true, true, true, true, true, true⟩).2.1,
   (cfgenv_eq_iff_present_fields ⟨true, true, true, true, true, true, true, true⟩).2.2.1 42
     (by decide),
   (cfgenv_eq_iff_present_fields ⟨true, true, true, true, true, true, true, true⟩).2.2.2.1
     rfl (EnvKzgSettings.Custom 0) (by decide),
   (cfgenv_eq_iff_present_fields
     ⟨true, true, true, true, true, true, true, true⟩).2.2.2.2.2.2.2.1 rfl 0 (by decide),
   (cfgenv_eq_iff_present_fields
     ⟨true, true, true, true, true, true, true, true⟩).2.2.2.2.2.2.2.2.2.2.2.2 rfl⟩

/-- Decoding an encoding recovers every serialized field verbatim; the skipped
trusted-setup field comes back as its default and absent-feature storage as the
impl Default literals. -/
theorem decode_encode (f : Features) (c : CfgEnv) :
    CfgEnv.decode f (CfgEnv.encode f c) = some
      { c with
        kzg_settings := EnvKzgSettings.Default
        memory_limit := cond f.memory_limit c.memory_limit ((1 <<< 32) - 1)
        disable_balance_check := cond f.optional_balance_check c.disable_balance_check false
        disable_block_gas_limit :=
          cond f.optional_block_gas_limit c.disable_block_gas_limit false
        disable_eip3607 := cond f.optional_eip3607 c.disable_eip3607 false
        disable_gas_refund := cond f.optional_gas_refund c.disable_gas_refund false
        disable_base_fee := cond f.optional_no_base_fee c.disable_base_fee false } := by
  obtain ⟨ck, kr, ml, obc, obg, o36, ogr, obf⟩ := f
  cases ml <;> cases obc <;> cases obg <;> cases o36 <;> cases ogr <;> cases obf <;> rfl

/-- C7: with serialization enabled, decode of encode succeeds and agrees with the
original on every serialized present field; the default round-trips exactly; and
the trusted-setup field never appears in the encoded record. -/
theorem serde_roundtrip (f : Features) (c : CfgEnv) :
    (∃ c', CfgEnv.decode f (CfgEnv.encode f c) = some c' ∧
      CfgEnv.serializedEq f c c' = true ∧
      c'.kzg_settings = EnvKzgSettings.Default) ∧
    CfgEnv.decode f (CfgEnv.encode f CfgEnv.default) = some CfgEnv.default ∧
    (CfgEnv.encode f c).all (fun p => !(p.1 == FieldTag.kzg_settings)) = true := by
  refine ⟨⟨_, decode_encode f c, ?_, rfl⟩, ?_, ?_⟩
  · cases hm : f.memory_limit <;> cases hb : f.optional_balance_check <;>
      cases hg : f.optional_block_gas_limit <;> cases h3 : f.optional_eip3607 <;>
      cases hr : f.optional_gas_refund <;> cases hf : f.optional_no_base_fee <;>
      simp [CfgEnv.serializedEq, hm, hb, hg, h3, hr, hf]
  · rw [decode_encode]
    simp [CfgEnv.default, cond_same]
  · cases hm : f.memory_limit <;> cases hb : f.optional_balance_check <;>
      cases hg : f.optional_block_gas_limit <;> cases h3 : f.optional_eip3607 <;>
      cases hr : f.optional_gas_refund <;> cases hf : f.optional_no_base_fee <;>
      simp [CfgEnv.encode, hm, hb, hg, h3, hr, hf]

end Revm
